import Mathlib

/-!
# Verification of the leave-request tracker (`src/app.py`)

A shallow embedding of the Flask/SQLAlchemy application `app.py`.  The
database is modelled as an explicit `State` value holding the five tables
as lists; each API handler becomes a pure function from a state (plus the
authenticated caller, which the Flask session plumbing would provide) to a
result together with the successor state.  Python exceptions that escape a
handler (`ValueError`, `ZeroDivisionError`, attribute errors on a missing
row) are modelled by `Option`, with `none` standing for a crash.

Machine reals: the only fractional arithmetic in the source is
`round(m / workday_minutes, 2)` in the summary endpoint.  We model it over
`ℚ` with exact round-half-to-even at two decimals (`pyRound2`); binary
floating point representation artifacts are outside the model.
-/

/-- Status column of a leave request (`LeaveRequest.status`). -/
inductive Status where
  | PENDING
  | APPROVED
  | REJECTED
  | CANCELLED
deriving DecidableEq, Repr

/-- A calendar date (`datetime.date`): `Employee.join_date` and the
`date(year, 12, 31)` passed to the accrual calculation. -/
structure Date where
  year : Int
  month : Int
  day : Int
deriving DecidableEq, Repr

/-- A timestamp (`datetime.datetime`): `start_dt` / `end_dt` of a request
and the window bounds built by the summary endpoint. -/
structure DateTime where
  year : Int
  month : Int
  day : Int
  hour : Int
  minute : Int
  second : Int
deriving DecidableEq, Repr

/-- Lexicographic `<=` on timestamps, as the database compares the
`DateTime` column. -/
def DateTime.le (a b : DateTime) : Bool :=
  if a.year ≠ b.year then decide (a.year < b.year)
  else if a.month ≠ b.month then decide (a.month < b.month)
  else if a.day ≠ b.day then decide (a.day < b.day)
  else if a.hour ≠ b.hour then decide (a.hour < b.hour)
  else if a.minute ≠ b.minute then decide (a.minute < b.minute)
  else decide (a.second ≤ b.second)

/-- A well-formed timestamp: every `datetime.datetime` Python constructs
satisfies these field bounds. -/
def DateTime.Valid (d : DateTime) : Prop :=
  1 ≤ d.month ∧ d.month ≤ 12 ∧ 1 ≤ d.day ∧ d.day ≤ 31 ∧
  0 ≤ d.hour ∧ d.hour ≤ 23 ∧ 0 ≤ d.minute ∧ d.minute ≤ 59 ∧
  0 ≤ d.second ∧ d.second ≤ 59

instance (d : DateTime) : Decidable d.Valid := by
  unfold DateTime.Valid; infer_instance

/-- Row of the `employee` table (columns the core logic reads). -/
structure Employee where
  id : Nat
  join_date : Date
  is_active : Bool
deriving DecidableEq, Repr

/-- Row of the `leave_type` table (columns the core logic reads). -/
structure LeaveType where
  id : Nat
  code : String
  is_enabled : Bool
deriving DecidableEq, Repr

/-- Row of the `leave_policy` table. -/
structure LeavePolicy where
  key : String
  value : String
deriving DecidableEq, Repr

/-- Row of the `leave_request` table. -/
structure LeaveRequest where
  id : Nat
  employee_id : Nat
  leave_type_id : Nat
  start_dt : DateTime
  end_dt : DateTime
  requested_minutes : Int
  status : Status
deriving DecidableEq, Repr

/-- Row of the `approval_log` table. -/
structure ApprovalLog where
  leave_request_id : Nat
  acted_by : String
  action : String
  comment : Option String
deriving DecidableEq, Repr

/-- The whole database.  `next_request_id` models the autoincrement primary
key handed to the next inserted `LeaveRequest`. -/
structure State where
  employees : List Employee
  leave_types : List LeaveType
  policies : List LeavePolicy
  requests : List LeaveRequest
  logs : List ApprovalLog
  next_request_id : Nat
deriving DecidableEq, Repr

/-- `LeaveRequest.query.get(req_id)`: primary-key lookup. -/
def findRequest (s : State) (i : Nat) : Option LeaveRequest :=
  s.requests.find? (fun r => r.id == i)

/-- `Employee.query.get(emp_id)`: primary-key lookup. -/
def findEmployee (s : State) (i : Nat) : Option Employee :=
  s.employees.find? (fun e => e.id == i)

/-- `LeaveType.query.get(lt_id)`: primary-key lookup. -/
def findLeaveType (s : State) (i : Nat) : Option LeaveType :=
  s.leave_types.find? (fun t => t.id == i)

/-- Mutating `r.status = st` on the row with primary key `i` (ids are
unique in the database, so a keyed map update is the ORM row update). -/
def updateStatus (rs : List LeaveRequest) (i : Nat) (st : Status) : List LeaveRequest :=
  rs.map (fun r => if r.id == i then { r with status := st } else r)

/-- Error responses the handlers return (`jsonify({'error': msg}), code`). -/
inductive ApiError where
  | unauthorized
  | notFound (msg : String)
  | badRequest (msg : String)
deriving DecidableEq, Repr

/-- Whether an API call returned a success JSON rather than an error. -/
def resultOk {α : Type} : Except ApiError α → Bool
  | Except.ok _ => true
  | Except.error _ => false

/-- The `DEFAULTS` policy dict. -/
def DEFAULTS : String → Option String := fun k =>
  if k = "workday_minutes" then some "480"
  else if k = "sick_default_days" then some "10"
  else if k = "admin_pin" then some "1234"
  else none

/-- `get_policy`: read the stored value, or lazily create (and persist) the
built-in default — `DEFAULTS.get(key, '')` — when the key was never set. -/
def get_policy (s : State) (key : String) : String × State :=
  match s.policies.find? (fun p => p.key == key) with
  | some p => (p.value, s)
  | none =>
      let v := (DEFAULTS key).getD ""
      (v, { s with policies := s.policies ++ [⟨key, v⟩] })

/-- `calculate_annual_leave_days(join_date, as_of)`.  Python `//` is floor
division, i.e. `Int.fdiv`. -/
def calculate_annual_leave_days (join_date : Date) (as_of : Date) : Int :=
  let months := (as_of.year - join_date.year) * 12 + (as_of.month - join_date.month)
  let years := Int.fdiv months 12
  if years = 0 then min months 11
  else min (15 + Int.fdiv (years - 1) 2) 25

/-- Model of Python `int(str)` on the strings this app stores: an optional
sign followed by one or more decimal digits parses; anything else raises
`ValueError`, modelled as `none`. -/
def pyStrToInt (s : String) : Option Int :=
  let digitsVal : List Char → Int := fun cs =>
    cs.foldl (fun acc c => acc * 10 + (Int.ofNat (c.toNat - 48))) 0
  let allDigits : List Char → Bool := fun cs =>
    !cs.isEmpty && cs.all Char.isDigit
  match s.toList with
  | '-' :: rest => if allDigits rest then some (-(digitsVal rest)) else none
  | '+' :: rest => if allDigits rest then some (digitsVal rest) else none
  | cs => if allDigits cs then some (digitsVal cs) else none

/-- Round-half-to-even to an integer, the rounding of Python `round`
(modelled over exact rationals).  Used in claim statements; the executable
handler below uses the integer form `roundHalfEvenDiv`. -/
def roundHalfEven (q : ℚ) : ℤ :=
  if q - ⌊q⌋ < 1 / 2 then ⌊q⌋
  else if 1 / 2 < q - ⌊q⌋ then ⌊q⌋ + 1
  else if ⌊q⌋ % 2 = 0 then ⌊q⌋ else ⌊q⌋ + 1

/-- Python `round(x, 2)` over exact rationals. -/
def pyRound2 (q : ℚ) : ℚ :=
  (roundHalfEven (q * 100) : ℚ) / 100

/-- Executable round-half-to-even of the fraction `t / w` (for `w > 0`):
`Int.fdiv` is Python floor division, and the remainder decides the
direction.  `roundHalfEvenDiv_eq` proves it agrees with `roundHalfEven`. -/
def roundHalfEvenDiv (t w : ℤ) : ℤ :=
  let f := Int.fdiv t w
  let r := t - w * f
  if 2 * r < w then f
  else if w < 2 * r then f + 1
  else if f % 2 = 0 then f else f + 1

/-- Python `round(t / w, 2)` expressed in hundredths ("centi-days"): the
JSON numbers this app emits always have two decimal places, so a value `x`
is represented losslessly by the integer `100 * x`. -/
def round2CentiDiv (t w : ℤ) : ℤ :=
  roundHalfEvenDiv (t * 100) w

/-- Request body of `POST /api/my/requests`. -/
structure CreatePayload where
  leave_type_id : Nat
  start_dt : DateTime
  end_dt : DateTime
  requested_minutes : Int
  reason : Option String
deriving DecidableEq, Repr

/-- The `LeaveRequest` row `api_create_request` inserts (primary key from
the autoincrement counter, status hard-wired to `PENDING`). -/
def newRequest (s : State) (emp_id : Nat) (p : CreatePayload) : LeaveRequest :=
  { id := s.next_request_id
    employee_id := emp_id
    leave_type_id := p.leave_type_id
    start_dt := p.start_dt
    end_dt := p.end_dt
    requested_minutes := p.requested_minutes
    status := Status.PENDING }

/-- `api_create_request` (employee caller already authenticated; the
session guard is modelled by the `emp_id` argument).  The handler only
checks that the leave type id resolves; it performs no date, duration or
enabled-flag validation.  On success the request row and its CREATE log
entry are both present in the final state. -/
def api_create_request (s : State) (emp_id : Nat) (p : CreatePayload) :
    Except ApiError Nat × State :=
  match findLeaveType s p.leave_type_id with
  | none => (Except.error (ApiError.badRequest "invalid leave type"), s)
  | some _ =>
      let r := newRequest s emp_id p
      (Except.ok r.id,
        { s with requests := s.requests ++ [r],
                 logs := s.logs ++ [⟨r.id, "EMPLOYEE", "CREATE", none⟩],
                 next_request_id := s.next_request_id + 1 })

/-- `api_cancel_request`: owner-only; missing id and foreign owner return
the same `404 not found`; only PENDING or APPROVED can be cancelled. -/
def api_cancel_request (s : State) (emp_id : Nat) (req_id : Nat) :
    Except ApiError Unit × State :=
  match findRequest s req_id with
  | none => (Except.error (ApiError.notFound "not found"), s)
  | some r =>
      if r.employee_id ≠ emp_id then
        (Except.error (ApiError.notFound "not found"), s)
      else if r.status ≠ Status.PENDING ∧ r.status ≠ Status.APPROVED then
        (Except.error (ApiError.badRequest "cannot cancel"), s)
      else
        (Except.ok (),
          { s with requests := updateStatus s.requests req_id Status.CANCELLED,
                   logs := s.logs ++ [⟨req_id, "EMPLOYEE", "CANCEL", none⟩] })

/-- `api_admin_approve`: missing id and non-PENDING status share one
`404 not found or not pending` branch. -/
def api_admin_approve (s : State) (req_id : Nat) : Except ApiError Unit × State :=
  match findRequest s req_id with
  | none => (Except.error (ApiError.notFound "not found or not pending"), s)
  | some r =>
      if r.status ≠ Status.PENDING then
        (Except.error (ApiError.notFound "not found or not pending"), s)
      else
        (Except.ok (),
          { s with requests := updateStatus s.requests req_id Status.APPROVED,
                   logs := s.logs ++ [⟨req_id, "ADMIN", "APPROVE", none⟩] })

/-- Python `not comment` on the JSON field: absent or empty string. -/
def commentFalsy (c : Option String) : Prop := c = none ∨ c = some ""

instance (c : Option String) : Decidable (commentFalsy c) := by
  unfold commentFalsy; infer_instance

/-- `api_admin_reject`: the non-empty-comment check runs before the row
lookup; missing id and non-PENDING status share one 404 branch. -/
def api_admin_reject (s : State) (req_id : Nat) (comment : Option String) :
    Except ApiError Unit × State :=
  if commentFalsy comment then
    (Except.error (ApiError.badRequest "comment required"), s)
  else
    match findRequest s req_id with
    | none => (Except.error (ApiError.notFound "not found or not pending"), s)
    | some r =>
        if r.status ≠ Status.PENDING then
          (Except.error (ApiError.notFound "not found or not pending"), s)
        else
          (Except.ok (),
            { s with requests := updateStatus s.requests req_id Status.REJECTED,
                     logs := s.logs ++ [⟨req_id, "ADMIN", "REJECT", comment⟩] })

/-- `r.leave_type.code`: resolving the relationship; `none` models the
`AttributeError` crash on a dangling foreign key. -/
def leaveTypeCode (s : State) (r : LeaveRequest) : Option String :=
  (findLeaveType s r.leave_type_id).map (fun t => t.code)

/-- The summary's window filter
`datetime(y,1,1) <= start_dt <= datetime(y,12,31,23,59,59)`. -/
def yearWindowFilter (year : Int) (d : DateTime) : Bool :=
  DateTime.le ⟨year, 1, 1, 0, 0, 0⟩ d && DateTime.le d ⟨year, 12, 31, 23, 59, 59⟩

/-- The `approved` query of `api_my_summary`. -/
def approvedInYear (s : State) (emp_id : Nat) (year : Int) : List LeaveRequest :=
  s.requests.filter (fun r =>
    r.employee_id == emp_id && r.status == Status.APPROVED && yearWindowFilter year r.start_dt)

/-- The `used_by_code` accumulation loop, with the dict modelled as its
lookup function (the initial dict answers 0 for every code, exactly like
`dict.get(code, 0)` on the four-key initial dict). -/
def accumUsed (s : State) : List LeaveRequest → (String → Int) → Option (String → Int)
  | [], acc => some acc
  | r :: rest, acc =>
      match leaveTypeCode s r with
      | none => none
      | some c =>
          accumUsed s rest (fun c2 => if c2 = c then acc c2 + r.requested_minutes else acc c2)

/-- JSON body of `/api/my/summary`, fractional day values in hundredths. -/
structure SummaryOut where
  year : Int
  workday_minutes : Int
  annual_granted_days : Int
  annual_used_centi : Int
  annual_remaining_centi : Int
  sick_granted_days : Int
  sick_used_centi : Int
  sick_remaining_centi : Int
  event_used_centi : Int
  public_used_centi : Int
  pending_count : Nat
  rejected_count : Nat
deriving DecidableEq, Repr

/-- `api_my_summary`.  `none` models an escaping Python exception, in the
order the source hits them: a missing employee row (`AttributeError`), a
non-parsing `workday_minutes` or `sick_default_days` value (`ValueError`
from `int()`), a dangling `leave_type` relationship (`AttributeError`),
and `workday_minutes == 0` (`ZeroDivisionError` in `minutes_to_days`).
Note `int(get_policy('workday_minutes') or '480')`: an *empty* stored
string falls back to `'480'` before parsing. -/
def api_my_summary (s : State) (emp_id : Nat) (year : Int) :
    Option (SummaryOut × State) :=
  match findEmployee s emp_id with
  | none => none
  | some emp =>
    let w1 := get_policy s "workday_minutes"
    match pyStrToInt (if w1.1 = "" then "480" else w1.1) with
    | none => none
    | some workday =>
      let grantedA := calculate_annual_leave_days emp.join_date ⟨year, 12, 31⟩
      let w2 := get_policy w1.2 "sick_default_days"
      match pyStrToInt (if w2.1 = "" then "10" else w2.1) with
      | none => none
      | some grantedS =>
        let s2 := w2.2
        match accumUsed s2 (approvedInYear s2 emp_id year) (fun _ => 0) with
        | none => none
        | some used =>
          if workday = 0 then none
          else
            let aU := round2CentiDiv (used "ANNUAL") workday
            let sU := round2CentiDiv (used "SICK") workday
            some ({ year := year
                    workday_minutes := workday
                    annual_granted_days := grantedA
                    annual_used_centi := aU
                    annual_remaining_centi := round2CentiDiv (100 * grantedA - aU) 100
                    sick_granted_days := grantedS
                    sick_used_centi := sU
                    sick_remaining_centi := round2CentiDiv (100 * grantedS - sU) 100
                    event_used_centi := round2CentiDiv (used "EVENT") workday
                    public_used_centi := round2CentiDiv (used "PUBLIC") workday
                    pending_count := (s2.requests.filter (fun r =>
                      r.employee_id == emp_id && r.status == Status.PENDING)).length
                    rejected_count := (s2.requests.filter (fun r =>
                      r.employee_id == emp_id && r.status == Status.REJECTED)).length }, s2)

/-- The sequence of states `api_create_request` *commits*: the source
calls `db.session.commit()` twice — once right after inserting the
request row (to obtain its autoincrement id) and once after appending the
CREATE log entry — so the request is durably visible before its log
entry.  On validation failure nothing is committed. -/
def api_create_request_commits (s : State) (emp_id : Nat) (p : CreatePayload) :
    List State :=
  match findLeaveType s p.leave_type_id with
  | none => []
  | some _ =>
      let r := newRequest s emp_id p
      let s1 := { s with requests := s.requests ++ [r],
                         next_request_id := s.next_request_id + 1 }
      let s2 := { s1 with logs := s1.logs ++ [⟨r.id, "EMPLOYEE", "CREATE", none⟩] }
      [s1, s2]

/-- States committed by `api_cancel_request`: a single commit covering both
the status change and the CANCEL log entry; none on failure. -/
def api_cancel_request_commits (s : State) (emp_id : Nat) (req_id : Nat) :
    List State :=
  if resultOk (api_cancel_request s emp_id req_id).1 then
    [(api_cancel_request s emp_id req_id).2]
  else []

/-- States committed by `api_admin_approve`: a single commit; none on failure. -/
def api_admin_approve_commits (s : State) (req_id : Nat) : List State :=
  if resultOk (api_admin_approve s req_id).1 then
    [(api_admin_approve s req_id).2]
  else []

/-- States committed by `api_admin_reject`: a single commit; none on failure. -/
def api_admin_reject_commits (s : State) (req_id : Nat) (comment : Option String) :
    List State :=
  if resultOk (api_admin_reject s req_id comment).1 then
    [(api_admin_reject s req_id comment).2]
  else []

/-- The audit-trail consistency a reader may rely on: every stored request
has a CREATE log entry (a request whose creation is visible without its
audit record violates it). -/
def logConsistent (s : State) : Prop :=
  ∀ r ∈ s.requests, ∃ l ∈ s.logs, l.leave_request_id = r.id ∧ l.action = "CREATE"

instance (s : State) : Decidable (logConsistent s) := by
  unfold logConsistent; infer_instance

/-- Modelled from the claim's words (C4): months elapsed counted as the
calendar year/month difference with day-of-month ignored, `years` by
integer (floor) division, first-year accrual `min(months, 11)`, then
`min(15 + (years-1)/2, 25)`. -/
def annualEntitlementSpec (join : Date) (as_of : Date) : Int :=
  let monthsElapsed := (as_of.year - join.year) * 12 + (as_of.month - join.month)
  let years := Int.fdiv monthsElapsed 12
  if years = 0 then min monthsElapsed 11
  else min (15 + Int.fdiv (years - 1) 2) 25

/-- Modelled from the claim's words (C3): total `requested_minutes` of the
employee's APPROVED requests whose `start_dt` falls in calendar year
`year` and whose leave type carries `code`. -/
def specUsedMinutes (s : State) (emp_id : Nat) (year : Int) (code : String) : Int :=
  (((s.requests.filter (fun r =>
        r.employee_id == emp_id && r.status == Status.APPROVED &&
        r.start_dt.year == year)).filter
      (fun r => leaveTypeCode s r == some code)).map
    (fun r => r.requested_minutes)).sum


/- ---------------- concrete fixtures used by witnesses ---------------- -/

/-- Employee 1, joined 2020-01-01. -/
def exEmployee : Employee := ⟨1, ⟨2020, 1, 1⟩, true⟩

/-- Employee 2, joined 2021-07-01. -/
def exEmployee2 : Employee := ⟨2, ⟨2021, 7, 1⟩, true⟩

/-- The seeded ANNUAL leave type. -/
def exAnnualType : LeaveType := ⟨1, "ANNUAL", true⟩

/-- A disabled leave type. -/
def exDisabledType : LeaveType := ⟨2, "EVENT", false⟩

/-- A PENDING request of employee 1. -/
def exPendingReq : LeaveRequest :=
  ⟨1, 1, 1, ⟨2025, 6, 10, 0, 0, 0⟩, ⟨2025, 6, 10, 8, 0, 0⟩, 480, Status.PENDING⟩

/-- An APPROVED 960-minute ANNUAL request of employee 1 starting in 2025. -/
def exApprovedReq : LeaveRequest :=
  ⟨2, 1, 1, ⟨2025, 6, 12, 0, 0, 0⟩, ⟨2025, 6, 13, 8, 0, 0⟩, 960, Status.APPROVED⟩

/-- A REJECTED request of employee 1. -/
def exRejectedReq : LeaveRequest :=
  ⟨3, 1, 1, ⟨2025, 7, 1, 0, 0, 0⟩, ⟨2025, 7, 1, 8, 0, 0⟩, 480, Status.REJECTED⟩

/-- A CANCELLED request of employee 1. -/
def exCancelledReq : LeaveRequest :=
  ⟨4, 1, 1, ⟨2025, 8, 1, 0, 0, 0⟩, ⟨2025, 8, 1, 8, 0, 0⟩, 480, Status.CANCELLED⟩

/-- A populated database: two employees, the three seeded policies, and one
request of employee 1 in each of the four statuses (each with its CREATE
log entry). -/
def exState : State :=
  { employees := [exEmployee, exEmployee2]
    leave_types := [exAnnualType, exDisabledType]
    policies := [⟨"workday_minutes", "480"⟩, ⟨"sick_default_days", "10"⟩,
                 ⟨"admin_pin", "1234"⟩]
    requests := [exPendingReq, exApprovedReq, exRejectedReq, exCancelledReq]
    logs := [⟨1, "EMPLOYEE", "CREATE", none⟩, ⟨2, "EMPLOYEE", "CREATE", none⟩,
             ⟨3, "EMPLOYEE", "CREATE", none⟩, ⟨4, "EMPLOYEE", "CREATE", none⟩]
    next_request_id := 5 }

/-- A database with no policy rows yet. -/
def exEmptyState : State :=
  { employees := [exEmployee]
    leave_types := [exAnnualType]
    policies := []
    requests := []
    logs := []
    next_request_id := 1 }

/-- A create payload with end before start, negative minutes, and the
disabled leave type — the validations the spec asks for would all fire. -/
def exBadPayload : CreatePayload :=
  ⟨2, ⟨2025, 3, 10, 0, 0, 0⟩, ⟨2025, 3, 9, 0, 0, 0⟩, -5, none⟩

/-- A well-formed create payload for the ANNUAL type. -/
def exCreatePayload : CreatePayload :=
  ⟨1, ⟨2026, 1, 5, 0, 0, 0⟩, ⟨2026, 1, 5, 8, 0, 0⟩, 480, some "trip"⟩

/-- The state after `api_create_request`'s *first* commit on `exState`:
the new request row is durable, its CREATE log entry is not. -/
def exC5Mid : State :=
  { exState with requests := exState.requests ++ [newRequest exState 1 exCreatePayload]
                 next_request_id := exState.next_request_id + 1 }

/-- The summary `api_my_summary exState 1 2025` produces. -/
def exSummaryOut : SummaryOut :=
  { year := 2025
    workday_minutes := 480
    annual_granted_days := 17
    annual_used_centi := 200
    annual_remaining_centi := 1500
    sick_granted_days := 10
    sick_used_centi := 0
    sick_remaining_centi := 1000
    event_used_centi := 0
    public_used_centi := 0
    pending_count := 1
    rejected_count := 1 }

/-- A stored `workday_minutes` of `'0'`: `int('0')` succeeds and the
summary divides by zero. -/
def exZeroWorkday : State :=
  { employees := [exEmployee]
    leave_types := [exAnnualType]
    policies := [⟨"workday_minutes", "0"⟩]
    requests := []
    logs := []
    next_request_id := 1 }

/-- A stored `workday_minutes` of `''`: non-numeric, yet
`get_policy(...) or '480'` falls back before `int` ever sees it. -/
def exBlankWorkday : State :=
  { employees := [exEmployee]
    leave_types := [exAnnualType]
    policies := [⟨"workday_minutes", ""⟩]
    requests := []
    logs := []
    next_request_id := 1 }

/- ------------------------- helper lemmas ------------------------- -/

theorem find?_congr_pt {α : Type} (l : List α) (p q : α → Bool) (h : ∀ a, p a = q a) :
    l.find? p = l.find? q := by
  induction l with
  | nil => rfl
  | cons a t ih => rw [List.find?_cons, List.find?_cons, h a, ih]

theorem find?_updateStatus (rs : List LeaveRequest) (i : Nat) (st : Status) :
    (updateStatus rs i st).find? (fun r => r.id == i) =
      (rs.find? (fun r => r.id == i)).map (fun r => { r with status := st }) := by
  unfold updateStatus
  rw [List.find?_map]
  have hpq : ∀ r : LeaveRequest,
      ((fun r : LeaveRequest => r.id == i) ∘ fun r : LeaveRequest =>
        if r.id == i then { r with status := st } else r) r
        = (fun r : LeaveRequest => r.id == i) r := by
    intro r
    by_cases h : r.id = i <;> simp [h]
  rw [find?_congr_pt _ _ _ hpq]
  cases hf : rs.find? (fun r => r.id == i) with
  | none => rfl
  | some r =>
      have hp := List.find?_some hf
      simp only [Option.map] at *
      simp [hp]

theorem find?_append_policies {l₁ l₂ : List LeavePolicy} (p : LeavePolicy → Bool) :
    (l₁ ++ l₂).find? p = ((l₁.find? p).or (l₂.find? p)) := by
  induction l₁ with
  | nil => rfl
  | cons a l ih =>
      by_cases h : p a
      · simp [List.find?_cons, h]
      · simp [List.find?_cons, h, ih]

theorem get_policy_requests (s : State) (k : String) :
    (get_policy s k).2.requests = s.requests := by
  unfold get_policy
  split <;> rfl

theorem get_policy_leave_types (s : State) (k : String) :
    (get_policy s k).2.leave_types = s.leave_types := by
  unfold get_policy
  split <;> rfl

theorem leaveTypeCode_congr {s s' : State} (h : s.leave_types = s'.leave_types)
    (r : LeaveRequest) : leaveTypeCode s r = leaveTypeCode s' r := by
  unfold leaveTypeCode findLeaveType
  rw [h]

theorem DateTime.le_iff (a b : DateTime) :
    DateTime.le a b = true ↔
      (a.year < b.year ∨ (a.year = b.year ∧ (a.month < b.month ∨ (a.month = b.month ∧
        (a.day < b.day ∨ (a.day = b.day ∧ (a.hour < b.hour ∨ (a.hour = b.hour ∧
        (a.minute < b.minute ∨ (a.minute = b.minute ∧ a.second ≤ b.second)))))))))) := by
  unfold DateTime.le
  split_ifs <;> simp <;> omega

theorem yearWindowFilter_eq_year (year : Int) (d : DateTime) (hv : d.Valid) :
    yearWindowFilter year d = (d.year == year) := by
  obtain ⟨h1, h2, h3, h4, h5, h6, h7, h8, h9, h10⟩ := hv
  rw [Bool.eq_iff_iff]
  unfold yearWindowFilter
  rw [Bool.and_eq_true, DateTime.le_iff, DateTime.le_iff, beq_iff_eq]
  dsimp only
  omega

theorem roundHalfEvenDiv_eq (t w : ℤ) (hw : 0 < w) :
    roundHalfEvenDiv t w = roundHalfEven ((t : ℚ) / (w : ℚ)) := by
  have hwQ : (0 : ℚ) < (w : ℚ) := by exact_mod_cast hw
  have hfe : Int.fdiv t w = t / w := Int.fdiv_eq_ediv t (le_of_lt hw)
  have hkey : Int.fdiv t w * w + t % w = t := by
    rw [hfe]
    have := Int.ediv_add_emod t w
    linarith
  have hre : t - w * Int.fdiv t w = t % w := by linarith [hkey]
  have hr0 : 0 ≤ t % w := Int.emod_nonneg t (ne_of_gt hw)
  have hrw : t % w < w := Int.emod_lt_of_pos t hw
  have hkeyQ : ((Int.fdiv t w : ℤ) : ℚ) * w + ((t % w : ℤ) : ℚ) = t := by
    exact_mod_cast congrArg (fun z : ℤ => (z : ℚ)) hkey
  have hq : (t : ℚ) / w = ((Int.fdiv t w : ℤ) : ℚ) + ((t % w : ℤ) : ℚ) / w := by
    field_simp
    linarith [hkeyQ]
  have hfloor : ⌊(t : ℚ) / (w : ℚ)⌋ = Int.fdiv t w := by
    rw [hq, Int.floor_eq_iff]
    constructor
    · have : (0 : ℚ) ≤ (t % w : ℤ) / w := by positivity
      linarith
    · have : ((t % w : ℤ) : ℚ) / w < 1 := by
        rw [div_lt_one hwQ]
        exact_mod_cast hrw
      linarith
  have hfrac : (t : ℚ) / w - ⌊(t : ℚ) / (w : ℚ)⌋ = ((t % w : ℤ) : ℚ) / w := by
    rw [hfloor, hq]
    ring
  have c1 : (((t % w : ℤ) : ℚ) / w < 1 / 2) ↔ (2 * (t % w) < w) := by
    rw [div_lt_div_iff₀ hwQ (by norm_num : (0 : ℚ) < 2), one_mul, mul_comm]
    exact_mod_cast Iff.rfl
  have c2 : (1 / 2 < ((t % w : ℤ) : ℚ) / w) ↔ (w < 2 * (t % w)) := by
    rw [div_lt_div_iff₀ (by norm_num : (0 : ℚ) < 2) hwQ, one_mul, mul_comm]
    exact_mod_cast Iff.rfl
  unfold roundHalfEvenDiv roundHalfEven
  dsimp only
  rw [hre, hfrac, hfloor]
  simp only [c1, c2]

theorem round2CentiDiv_eq (t w : ℤ) (hw : 0 < w) :
    ((round2CentiDiv t w : ℤ) : ℚ) / 100 = pyRound2 ((t : ℚ) / (w : ℚ)) := by
  unfold round2CentiDiv pyRound2
  rw [roundHalfEvenDiv_eq (t * 100) w hw]
  have : ((t * 100 : ℤ) : ℚ) / w = (t : ℚ) / w * 100 := by
    push_cast
    ring
  rw [this]

theorem round2CentiDiv_hundred (t : ℤ) : round2CentiDiv t 100 = t := by
  unfold round2CentiDiv roundHalfEvenDiv
  dsimp only
  rw [Int.mul_fdiv_cancel t (by norm_num)]
  have h0 : t * 100 - 100 * t = 0 := by ring
  rw [h0]
  norm_num

theorem accumUsed_eq (s : State) (rs : List LeaveRequest) :
    ∀ (acc u : String → Int), accumUsed s rs acc = some u → ∀ c : String,
      u c = acc c +
        ((rs.filter (fun r => leaveTypeCode s r == some c)).map
          (fun r => r.requested_minutes)).sum := by
  induction rs with
  | nil =>
      intro acc u h c
      unfold accumUsed at h
      cases h
      simp
  | cons r rest ih =>
      intro acc u h c
      unfold accumUsed at h
      cases hc : leaveTypeCode s r with
      | none => rw [hc] at h; cases h
      | some c' =>
          rw [hc] at h
          have := ih _ _ h c
          by_cases hcc : c = c'
          · subst hcc
            rw [this]
            simp [List.filter_cons, hc, add_assoc]
          · rw [this]
            have hne : ¬c' = c := fun hx => hcc hx.symm
            simp [List.filter_cons, hc, hne, if_neg hcc]

theorem mem_updateStatus {rs : List LeaveRequest} {i : Nat} {st : Status}
    {r' : LeaveRequest} (h : r' ∈ updateStatus rs i st) :
    ∃ r ∈ rs, r'.id = r.id := by
  unfold updateStatus at h
  rcases List.mem_map.mp h with ⟨r, hr, heq⟩
  refine ⟨r, hr, ?_⟩
  by_cases hid : r.id = i
  · rw [← heq]
    simp [hid]
  · rw [← heq]
    simp [hid]

theorem accumUsed_some (s : State) (rs : List LeaveRequest)
    (h : ∀ r ∈ rs, (leaveTypeCode s r).isSome = true) :
    ∀ acc, ∃ u, accumUsed s rs acc = some u := by
  induction rs with
  | nil => intro acc; exact ⟨acc, rfl⟩
  | cons r rest ih =>
      intro acc
      have hr := h r (List.mem_cons_self r rest)
      cases hc : leaveTypeCode s r with
      | none => rw [hc] at hr; cases hr
      | some c =>
          have := ih (fun x hx => h x (List.mem_cons_of_mem r hx))
            (fun c2 => if c2 = c then acc c2 + r.requested_minutes else acc c2)
          rcases this with ⟨u, hu⟩
          refine ⟨u, ?_⟩
          unfold accumUsed
          rw [hc]
          exact hu

/- ------------------------- claim theorems ------------------------- -/

/-- C4: `calculate_annual_leave_days` computes whole calendar months
elapsed (day-of-month ignored), `years = months / 12` by floor division,
`min(months, 11)` while `years == 0` and `min(15 + (years-1)/2, 25)`
after; in particular exactly 1 full year gives 15 days, 3 years 16,
5 years 17, and 21 or more full years is capped at 25. -/
theorem claim_C4_entitlement :
    (∀ jd ao : Date, calculate_annual_leave_days jd ao = annualEntitlementSpec jd ao) ∧
    (∀ y m d d' : Int,
      calculate_annual_leave_days ⟨y, m, d⟩ ⟨y + 1, m, d'⟩ = 15) ∧
    (∀ y m d d' : Int,
      calculate_annual_leave_days ⟨y, m, d⟩ ⟨y + 3, m, d'⟩ = 16) ∧
    (∀ y m d d' : Int,
      calculate_annual_leave_days ⟨y, m, d⟩ ⟨y + 5, m, d'⟩ = 17) ∧
    (∀ y m d d' k : Int, 21 ≤ k →
      calculate_annual_leave_days ⟨y, m, d⟩ ⟨y + k, m, d'⟩ = 25) := by
  refine ⟨fun jd ao => rfl, ?_, ?_, ?_, ?_⟩
  · intro y m d d'
    unfold calculate_annual_leave_days
    dsimp only
    rw [show (y + 1 - y) * 12 + (m - m) = (12 : Int) from by ring]
    decide
  · intro y m d d'
    unfold calculate_annual_leave_days
    dsimp only
    rw [show (y + 3 - y) * 12 + (m - m) = (36 : Int) from by ring]
    decide
  · intro y m d d'
    unfold calculate_annual_leave_days
    dsimp only
    rw [show (y + 5 - y) * 12 + (m - m) = (60 : Int) from by ring]
    decide
  · intro y m d d' k hk
    unfold calculate_annual_leave_days
    dsimp only
    rw [show (y + k - y) * 12 + (m - m) = 12 * k from by ring]
    rw [Int.mul_fdiv_cancel_left k (by norm_num)]
    rw [if_neg (by omega)]
    rw [Int.fdiv_eq_ediv (k - 1) (by norm_num)]
    omega

/-- C4 witness: 25 full years of tenure yields the 25-day cap. -/
theorem claim_C4_entitlement_witness :
    (21 : Int) ≤ 25 ∧
    calculate_annual_leave_days ⟨2000, 1, 1⟩ ⟨2000 + 25, 1, 1⟩ = 25 :=
  ⟨by norm_num, claim_C4_entitlement.2.2.2.2 2000 1 1 1 25 (by norm_num)⟩

/-- C8: for a key never set, the first `get_policy` call returns the
built-in default (`workday_minutes=480`, `sick_default_days=10`,
`admin_pin=1234`), appends exactly one stored record for the key, and a
second call returns the same value without touching the store again. -/
theorem claim_C8_get_policy_idempotent (s : State) (k : String)
    (h : s.policies.find? (fun p => p.key == k) = none) :
    (get_policy s k).1 = (DEFAULTS k).getD "" ∧
    (get_policy s k).2.policies = s.policies ++ [⟨k, (DEFAULTS k).getD ""⟩] ∧
    ((get_policy s k).2.policies.filter (fun p => p.key == k)).length = 1 ∧
    get_policy (get_policy s k).2 k = ((get_policy s k).1, (get_policy s k).2) ∧
    DEFAULTS "workday_minutes" = some "480" ∧
    DEFAULTS "sick_default_days" = some "10" ∧
    DEFAULTS "admin_pin" = some "1234" := by
  have hfil : s.policies.filter (fun p => p.key == k) = [] := by
    rw [List.filter_eq_nil_iff]
    intro p hp
    have := List.find?_eq_none.mp h p hp
    simpa using this
  have hfirst : get_policy s k =
      ((DEFAULTS k).getD "",
        { s with policies := s.policies ++ [⟨k, (DEFAULTS k).getD ""⟩] }) := by
    unfold get_policy
    rw [h]
  refine ⟨by rw [hfirst], by rw [hfirst], ?_, ?_, rfl, rfl, rfl⟩
  · rw [hfirst]
    rw [List.filter_append, hfil]
    simp
  · rw [hfirst]
    unfold get_policy
    rw [find?_append_policies, h]
    simp

/-- C8 witness: first read of `workday_minutes` on an empty policy table. -/
theorem claim_C8_get_policy_idempotent_witness :
    exEmptyState.policies.find? (fun p => p.key == "workday_minutes") = none ∧
    ((get_policy exEmptyState "workday_minutes").1 =
        (DEFAULTS "workday_minutes").getD "" ∧
      (get_policy exEmptyState "workday_minutes").2.policies =
        exEmptyState.policies ++ [⟨"workday_minutes", (DEFAULTS "workday_minutes").getD ""⟩] ∧
      ((get_policy exEmptyState "workday_minutes").2.policies.filter
          (fun p => p.key == "workday_minutes")).length = 1 ∧
      get_policy (get_policy exEmptyState "workday_minutes").2 "workday_minutes" =
        ((get_policy exEmptyState "workday_minutes").1,
          (get_policy exEmptyState "workday_minutes").2) ∧
      DEFAULTS "workday_minutes" = some "480" ∧
      DEFAULTS "sick_default_days" = some "10" ∧
      DEFAULTS "admin_pin" = some "1234") :=
  ⟨by decide, claim_C8_get_policy_idempotent exEmptyState "workday_minutes" (by decide)⟩

/-- C9: for an unset key outside the three-entry default table,
`get_policy` does not fail: it returns the empty string and persists a
record with the empty string as its value. -/
theorem claim_C9_unknown_key_empty_default (s : State) (k : String)
    (h : s.policies.find? (fun p => p.key == k) = none)
    (hk1 : k ≠ "workday_minutes") (hk2 : k ≠ "sick_default_days")
    (hk3 : k ≠ "admin_pin") :
    (get_policy s k).1 = "" ∧
    (get_policy s k).2.policies = s.policies ++ [⟨k, ""⟩] ∧
    (⟨k, ""⟩ : LeavePolicy) ∈ (get_policy s k).2.policies := by
  have hd : DEFAULTS k = none := by
    unfold DEFAULTS
    rw [if_neg hk1, if_neg hk2, if_neg hk3]
  have hfirst : get_policy s k = ("", { s with policies := s.policies ++ [⟨k, ""⟩] }) := by
    unfold get_policy
    rw [h, hd]
    rfl
  refine ⟨by rw [hfirst], by rw [hfirst], ?_⟩
  rw [hfirst]
  simp

/-- C9 witness: the unknown key `foo` on an empty policy table. -/
theorem claim_C9_unknown_key_empty_default_witness :
    exEmptyState.policies.find? (fun p => p.key == "foo") = none ∧
    ((get_policy exEmptyState "foo").1 = "" ∧
      (get_policy exEmptyState "foo").2.policies = exEmptyState.policies ++ [⟨"foo", ""⟩] ∧
      (⟨"foo", ""⟩ : LeavePolicy) ∈ (get_policy exEmptyState "foo").2.policies) :=
  ⟨by decide, claim_C9_unknown_key_empty_default exEmptyState "foo" (by decide)
    (by decide) (by decide) (by decide)⟩

/-- C7: cancelling a request owned by a different employee fails with the
same `404 not found` response a nonexistent id yields, and the state — in
particular every stored record — is returned unchanged. -/
theorem claim_C7_cancel_foreign_not_found (s : State) (e : Nat) (i : Nat)
    (r : LeaveRequest) (hf : findRequest s i = some r)
    (hown : r.employee_id ≠ e) :
    api_cancel_request s e i = (Except.error (ApiError.notFound "not found"), s) ∧
    (∀ j, findRequest s j = none →
      api_cancel_request s e j = (Except.error (ApiError.notFound "not found"), s)) := by
  constructor
  · unfold api_cancel_request
    rw [hf]
    dsimp only
    rw [if_pos hown]
  · intro j hj
    unfold api_cancel_request
    rw [hj]

/-- C7 witness: employee 2 cancelling employee 1's request 1; id 99 does
not exist. -/
theorem claim_C7_cancel_foreign_not_found_witness :
    findRequest exState 1 = some exPendingReq ∧
    exPendingReq.employee_id ≠ 2 ∧
    (api_cancel_request exState 2 1 =
        (Except.error (ApiError.notFound "not found"), exState) ∧
      (∀ j, findRequest exState j = none →
        api_cancel_request exState 2 j =
          (Except.error (ApiError.notFound "not found"), exState))) :=
  ⟨by decide, by decide,
    claim_C7_cancel_foreign_not_found exState 2 1 exPendingReq (by decide) (by decide)⟩

/-- C6: a request in REJECTED or CANCELLED status is terminal — approve,
reject (with or without a comment) and cancel (by any caller) all fail and
leave the state untouched — while an APPROVED request can still be
cancelled by its owning employee, moving it to CANCELLED. -/
theorem claim_C6_terminal_states (s : State) (i : Nat) (r : LeaveRequest)
    (hf : findRequest s i = some r) :
    ((r.status = Status.REJECTED ∨ r.status = Status.CANCELLED) →
      api_admin_approve s i =
        (Except.error (ApiError.notFound "not found or not pending"), s) ∧
      (∀ c, ¬commentFalsy c → api_admin_reject s i c =
        (Except.error (ApiError.notFound "not found or not pending"), s)) ∧
      (∀ c, commentFalsy c → api_admin_reject s i c =
        (Except.error (ApiError.badRequest "comment required"), s)) ∧
      (∀ e, resultOk (api_cancel_request s e i).1 = false ∧
        (api_cancel_request s e i).2 = s)) ∧
    (r.status = Status.APPROVED → ∀ e, r.employee_id = e →
      (api_cancel_request s e i).1 = Except.ok () ∧
      findRequest (api_cancel_request s e i).2 i =
        some { r with status := Status.CANCELLED }) := by
  constructor
  · intro hterm
    have hnp : r.status ≠ Status.PENDING := by
      rcases hterm with h | h <;> rw [h] <;> decide
    refine ⟨?_, ?_, ?_, ?_⟩
    · unfold api_admin_approve
      rw [hf]
      dsimp only
      rw [if_pos hnp]
    · intro c hc
      unfold api_admin_reject
      rw [if_neg hc, hf]
      dsimp only
      rw [if_pos hnp]
    · intro c hc
      unfold api_admin_reject
      rw [if_pos hc]
    · intro e
      unfold api_cancel_request
      rw [hf]
      dsimp only
      by_cases he : r.employee_id ≠ e
      · rw [if_pos he]
        exact ⟨rfl, rfl⟩
      · rw [if_neg he]
        have hnc : r.status ≠ Status.PENDING ∧ r.status ≠ Status.APPROVED := by
          rcases hterm with h | h <;> rw [h] <;> exact ⟨by decide, by decide⟩
        rw [if_pos hnc]
        exact ⟨rfl, rfl⟩
  · intro happ e he
    unfold api_cancel_request
    rw [hf]
    dsimp only
    rw [if_neg (by rw [he]; exact fun hx => hx rfl)]
    rw [if_neg (by rw [happ]; exact fun hx => hx.2 rfl)]
    constructor
    · rfl
    · show (updateStatus s.requests i Status.CANCELLED).find? (fun x => x.id == i) = _
      rw [find?_updateStatus]
      unfold findRequest at hf
      rw [hf]
      rfl

/-- C6 witness: on `exState`, the REJECTED request 3 rejects all three
actions, and the APPROVED request 2 is cancelled by its owner 1. -/
theorem claim_C6_terminal_states_witness :
    findRequest exState 3 = some exRejectedReq ∧
    (api_admin_approve exState 3 =
      (Except.error (ApiError.notFound "not found or not pending"), exState)) ∧
    resultOk (api_cancel_request exState 1 3).1 = false ∧
    (api_cancel_request exState 1 3).2 = exState ∧
    findRequest exState 2 = some exApprovedReq ∧
    (api_cancel_request exState 1 2).1 = Except.ok () ∧
    findRequest (api_cancel_request exState 1 2).2 2 =
      some { exApprovedReq with status := Status.CANCELLED } := by
  have h3 := claim_C6_terminal_states exState 3 exRejectedReq (by decide)
  have h2 := claim_C6_terminal_states exState 2 exApprovedReq (by decide)
  have h3t := h3.1 (Or.inl (by decide))
  have h2t := h2.2 (by decide) 1 (by decide)
  exact ⟨by decide, h3t.1, (h3t.2.2.2 1).1, (h3t.2.2.2 1).2, by decide, h2t.1, h2t.2⟩

/-- C1 counterexample: request 1 exists and is PENDING, yet REJECT with an
empty comment fails (and leaves the state unchanged), so "APPROVE and
REJECT succeed exactly when the request exists and its status is PENDING"
is false as stated. -/
theorem claim_C1_counterexample :
    findRequest exState 1 = some exPendingReq ∧
    exPendingReq.status = Status.PENDING ∧
    resultOk (api_admin_reject exState 1 (some "")).1 = false ∧
    (api_admin_reject exState 1 (some "")).2 = exState :=
  ⟨by decide, by decide, by decide, by decide⟩

/-- C1 amended: APPROVE succeeds exactly when the request exists with
status PENDING; REJECT additionally requires a non-empty comment (checked
before the lookup, so an empty comment fails with a `400 comment required`
ValidationError even on a PENDING or missing id); in every failure case
the state — hence the request's status — is unchanged and the
state-machine failures share the `404 not found or not pending`
ConflictError response. -/
theorem claim_C1_amended (s : State) (i : Nat) (c : Option String) :
    (∀ r, findRequest s i = some r → r.status = Status.PENDING →
      (api_admin_approve s i).1 = Except.ok () ∧
      findRequest (api_admin_approve s i).2 i =
        some { r with status := Status.APPROVED }) ∧
    ((findRequest s i = none ∨
        (∃ r, findRequest s i = some r ∧ r.status ≠ Status.PENDING)) →
      api_admin_approve s i =
        (Except.error (ApiError.notFound "not found or not pending"), s)) ∧
    (¬commentFalsy c →
      (∀ r, findRequest s i = some r → r.status = Status.PENDING →
        (api_admin_reject s i c).1 = Except.ok () ∧
        findRequest (api_admin_reject s i c).2 i =
          some { r with status := Status.REJECTED }) ∧
      ((findRequest s i = none ∨
          (∃ r, findRequest s i = some r ∧ r.status ≠ Status.PENDING)) →
        api_admin_reject s i c =
          (Except.error (ApiError.notFound "not found or not pending"), s))) ∧
    (commentFalsy c →
      api_admin_reject s i c =
        (Except.error (ApiError.badRequest "comment required"), s)) := by
  refine ⟨?_, ?_, ?_, ?_⟩
  · intro r hf hp
    unfold api_admin_approve
    rw [hf]
    dsimp only
    rw [if_neg (by rw [hp]; exact fun hx => hx rfl)]
    refine ⟨rfl, ?_⟩
    show (updateStatus s.requests i Status.APPROVED).find? (fun x => x.id == i) = _
    rw [find?_updateStatus]
    unfold findRequest at hf
    rw [hf]
    rfl
  · rintro (hf | ⟨r, hf, hnp⟩)
    · unfold api_admin_approve
      rw [hf]
    · unfold api_admin_approve
      rw [hf]
      dsimp only
      rw [if_pos hnp]
  · intro hc
    constructor
    · intro r hf hp
      unfold api_admin_reject
      rw [if_neg hc, hf]
      dsimp only
      rw [if_neg (by rw [hp]; exact fun hx => hx rfl)]
      refine ⟨rfl, ?_⟩
      show (updateStatus s.requests i Status.REJECTED).find? (fun x => x.id == i) = _
      rw [find?_updateStatus]
      unfold findRequest at hf
      rw [hf]
      rfl
    · rintro (hf | ⟨r, hf, hnp⟩)
      · unfold api_admin_reject
        rw [if_neg hc, hf]
      · unfold api_admin_reject
        rw [if_neg hc, hf]
        dsimp only
        rw [if_pos hnp]
  · intro hc
    unfold api_admin_reject
    rw [if_pos hc]

/-- C1 witness: approve succeeds on PENDING request 1; approve of the
REJECTED request 3 and of the missing id 99 both fail with the shared
ConflictError and unchanged state; reject succeeds on PENDING request 1
with a non-empty comment. -/
theorem claim_C1_amended_witness :
    ((api_admin_approve exState 1).1 = Except.ok () ∧
      findRequest (api_admin_approve exState 1).2 1 =
        some { exPendingReq with status := Status.APPROVED }) ∧
    api_admin_approve exState 3 =
      (Except.error (ApiError.notFound "not found or not pending"), exState) ∧
    api_admin_approve exState 99 =
      (Except.error (ApiError.notFound "not found or not pending"), exState) ∧
    ((api_admin_reject exState 1 (some "nope")).1 = Except.ok () ∧
      findRequest (api_admin_reject exState 1 (some "nope")).2 1 =
        some { exPendingReq with status := Status.REJECTED }) ∧
    api_admin_reject exState 1 none =
      (Except.error (ApiError.badRequest "comment required"), exState) := by
  refine ⟨(claim_C1_amended exState 1 none).1 exPendingReq (by decide) (by decide),
    (claim_C1_amended exState 3 none).2.1 (Or.inr ⟨exRejectedReq, by decide, by decide⟩),
    (claim_C1_amended exState 99 none).2.1 (Or.inl (by decide)),
    ((claim_C1_amended exState 1 (some "nope")).2.2.1 (by decide)).1 exPendingReq
      (by decide) (by decide),
    (claim_C1_amended exState 1 none).2.2.2 (by decide)⟩

/-- C2 counterexample: the payload has end before start, negative minutes,
and a disabled leave type — the claim says creation must fail with a
ValidationError creating no request — yet `api_create_request` succeeds
and stores a new PENDING request. -/
theorem claim_C2_counterexample :
    DateTime.le exBadPayload.start_dt exBadPayload.end_dt = false ∧
    exBadPayload.requested_minutes = -5 ∧
    findLeaveType exState exBadPayload.leave_type_id = some exDisabledType ∧
    exDisabledType.is_enabled = false ∧
    resultOk (api_create_request exState 1 exBadPayload).1 = true ∧
    findRequest (api_create_request exState 1 exBadPayload).2 5 =
      some (newRequest exState 1 exBadPayload) ∧
    (newRequest exState 1 exBadPayload).status = Status.PENDING :=
  ⟨by decide, by decide, by decide, by decide, by decide, by decide, by decide⟩

/-- C2 amended: `api_create_request` fails with a ValidationError
(creating no request) exactly when the referenced leave type id does not
resolve; it checks neither `end ≥ start`, nor `minutes > 0`, nor the
enabled flag, and whenever the leave type id exists it inserts a new
request in status PENDING with the payload's fields as given. -/
theorem claim_C2_amended (s : State) (e : Nat) (p : CreatePayload) :
    (findLeaveType s p.leave_type_id = none →
      api_create_request s e p =
        (Except.error (ApiError.badRequest "invalid leave type"), s)) ∧
    (∀ t, findLeaveType s p.leave_type_id = some t →
      (api_create_request s e p).1 = Except.ok s.next_request_id ∧
      (api_create_request s e p).2.requests = s.requests ++ [newRequest s e p] ∧
      (newRequest s e p).status = Status.PENDING ∧
      (newRequest s e p).start_dt = p.start_dt ∧
      (newRequest s e p).end_dt = p.end_dt ∧
      (newRequest s e p).requested_minutes = p.requested_minutes ∧
      (api_create_request s e p).2.logs =
        s.logs ++ [⟨s.next_request_id, "EMPLOYEE", "CREATE", none⟩]) := by
  constructor
  · intro hf
    unfold api_create_request
    rw [hf]
  · intro t hf
    unfold api_create_request
    rw [hf]
    exact ⟨rfl, rfl, rfl, rfl, rfl, rfl, rfl⟩

/-- C2 witness: the amended behaviour on the bad payload (existing but
disabled type, end before start, negative minutes). -/
theorem claim_C2_amended_witness :
    (api_create_request exState 1 exBadPayload).1 = Except.ok exState.next_request_id ∧
    (api_create_request exState 1 exBadPayload).2.requests =
      exState.requests ++ [newRequest exState 1 exBadPayload] ∧
    (newRequest exState 1 exBadPayload).status = Status.PENDING ∧
    api_create_request { exState with leave_types := [] } 1 exBadPayload =
      (Except.error (ApiError.badRequest "invalid leave type"),
        { exState with leave_types := [] }) := by
  have h := (claim_C2_amended exState 1 exBadPayload).2 exDisabledType (by decide)
  exact ⟨h.1, h.2.1, h.2.2.1,
    (claim_C2_amended { exState with leave_types := [] } 1 exBadPayload).1 (by decide)⟩

/-- C5 counterexample: starting from a log-consistent state, CREATE's
*first* commit (the source commits the request row before appending the
CREATE log entry in a second commit) produces a committed state holding
the new request with no log entry — a reader observes the status change
without its audit record, so the claimed one-atomic-unit behaviour is
false for CREATE. -/
theorem claim_C5_counterexample :
    logConsistent exState ∧
    (api_create_request_commits exState 1 exCreatePayload).head? = some exC5Mid ∧
    ¬logConsistent exC5Mid :=
  ⟨by decide, by decide, by decide⟩

/-- C5 amended: APPROVE, REJECT and CANCEL each commit their status change
together with their log append in a single commit, so from a log-consistent
state every state they commit is log-consistent; CREATE's *final* state is
also consistent, but it is reached through two commits (request row first,
CREATE log second), so consistency can be violated in between. -/
theorem claim_C5_amended (s : State) (h : logConsistent s) :
    (∀ i, ∀ t ∈ api_admin_approve_commits s i, logConsistent t) ∧
    (∀ i c, ∀ t ∈ api_admin_reject_commits s i c, logConsistent t) ∧
    (∀ e i, ∀ t ∈ api_cancel_request_commits s e i, logConsistent t) ∧
    (∀ e p, logConsistent (api_create_request s e p).2) := by
  have hupd : ∀ (i : Nat) (st : Status) (ls : List ApprovalLog),
      logConsistent { s with requests := updateStatus s.requests i st,
                             logs := s.logs ++ ls } := by
    intro i st ls r' hr'
    rcases mem_updateStatus hr' with ⟨r, hr, hid⟩
    rcases h r hr with ⟨l, hl, hlid, hact⟩
    exact ⟨l, List.mem_append_left ls hl, by rw [hid]; exact hlid, hact⟩
  refine ⟨?_, ?_, ?_, ?_⟩
  · intro i t ht
    unfold api_admin_approve_commits at ht
    by_cases hok : resultOk (api_admin_approve s i).1 = true
    · rw [if_pos hok] at ht
      unfold api_admin_approve at hok ht
      cases hf : findRequest s i with
      | none => rw [hf] at hok; simp [resultOk] at hok
      | some r =>
          rw [hf] at hok ht
          dsimp only at hok ht
          by_cases hp : r.status ≠ Status.PENDING
          · rw [if_pos hp] at hok; simp [resultOk] at hok
          · rw [if_neg hp] at ht
            rcases List.mem_singleton.mp ht with rfl
            exact hupd i Status.APPROVED _
    · rw [if_neg hok] at ht
      cases ht
  · intro i c t ht
    unfold api_admin_reject_commits at ht
    by_cases hok : resultOk (api_admin_reject s i c).1 = true
    · rw [if_pos hok] at ht
      unfold api_admin_reject at hok ht
      by_cases hc : commentFalsy c
      · rw [if_pos hc] at hok; simp [resultOk] at hok
      · rw [if_neg hc] at hok ht
        cases hf : findRequest s i with
        | none => rw [hf] at hok; simp [resultOk] at hok
        | some r =>
            rw [hf] at hok ht
            dsimp only at hok ht
            by_cases hp : r.status ≠ Status.PENDING
            · rw [if_pos hp] at hok; simp [resultOk] at hok
            · rw [if_neg hp] at ht
              rcases List.mem_singleton.mp ht with rfl
              exact hupd i Status.REJECTED _
    · rw [if_neg hok] at ht
      cases ht
  · intro e i t ht
    unfold api_cancel_request_commits at ht
    by_cases hok : resultOk (api_cancel_request s e i).1 = true
    · rw [if_pos hok] at ht
      unfold api_cancel_request at hok ht
      cases hf : findRequest s i with
      | none => rw [hf] at hok; simp [resultOk] at hok
      | some r =>
          rw [hf] at hok ht
          dsimp only at hok ht
          by_cases ho : r.employee_id ≠ e
          · rw [if_pos ho] at hok; simp [resultOk] at hok
          · rw [if_neg ho] at hok ht
            by_cases hp : r.status ≠ Status.PENDING ∧ r.status ≠ Status.APPROVED
            · rw [if_pos hp] at hok; simp [resultOk] at hok
            · rw [if_neg hp] at ht
              rcases List.mem_singleton.mp ht with rfl
              exact hupd i Status.CANCELLED _
    · rw [if_neg hok] at ht
      cases ht
  · intro e p
    unfold api_create_request
    cases hf : findLeaveType s p.leave_type_id with
    | none => exact h
    | some t =>
        dsimp only
        intro r' hr'
        rcases List.mem_append.mp hr' with hold | hnew
        · rcases h r' hold with ⟨l, hl, hlid, hact⟩
          exact ⟨l, List.mem_append_left _ hl, hlid, hact⟩
        · rcases List.mem_singleton.mp hnew with rfl
          refine ⟨⟨s.next_request_id, "EMPLOYEE", "CREATE", none⟩,
            List.mem_append_right _ (List.mem_singleton.mpr rfl), rfl, rfl⟩

/-- C5 witness: on `exState` (log-consistent), a single approve commit and
a full create both land in log-consistent states. -/
theorem claim_C5_amended_witness :
    logConsistent exState ∧
    (∀ t ∈ api_admin_approve_commits exState 1, logConsistent t) ∧
    logConsistent (api_create_request exState 1 exCreatePayload).2 :=
  ⟨by decide, (claim_C5_amended exState (by decide)).1 1,
    (claim_C5_amended exState (by decide)).2.2.2 1 exCreatePayload⟩

/-- C10 counterexample: a stored `workday_minutes` value of `''` does not
parse as an integer at all (so it is non-numeric and certainly not a
nonzero integer), yet the summary completes — the source reads
`int(get_policy('workday_minutes') or '480')`, and the empty string falls
back to `'480'` before `int` sees it.  So "total *only* when the value
parses as a nonzero integer / crashes on non-numeric values" is false as
stated. -/
theorem claim_C10_counterexample :
    (get_policy exBlankWorkday "workday_minutes").1 = "" ∧
    pyStrToInt "" = none ∧
    (api_my_summary exBlankWorkday 1 2025).isSome = true :=
  ⟨by decide, by decide, by decide⟩

/-- C10 amended: the summary guards nothing around the division — it
crashes (escaping exception) whenever the stored `workday_minutes` value
is non-empty and either fails to parse or parses to `0`; conversely it
completes whenever the value after the empty-string fallback parses to a
nonzero integer, provided the employee row exists, every request's leave
type resolves, and the sick-days policy value parses. -/
theorem claim_C10_amended (s : State) (e : Nat) (y : Int) :
    ((get_policy s "workday_minutes").1 ≠ "" ∧
      (pyStrToInt (get_policy s "workday_minutes").1 = none ∨
        pyStrToInt (get_policy s "workday_minutes").1 = some 0) →
      api_my_summary s e y = none) ∧
    (∀ emp n, findEmployee s e = some emp →
      pyStrToInt (if (get_policy s "workday_minutes").1 = "" then "480"
        else (get_policy s "workday_minutes").1) = some n →
      n ≠ 0 →
      (∀ r ∈ s.requests, (leaveTypeCode s r).isSome = true) →
      (∃ g, pyStrToInt
        (if (get_policy (get_policy s "workday_minutes").2 "sick_default_days").1 = ""
          then "10"
          else (get_policy (get_policy s "workday_minutes").2 "sick_default_days").1)
        = some g) →
      (api_my_summary s e y).isSome = true) := by
  constructor
  · rintro ⟨hne, hbad⟩
    unfold api_my_summary
    cases hemp : findEmployee s e with
    | none => rfl
    | some emp =>
        dsimp only
        rw [if_neg hne]
        rcases hbad with hb | hb
        · rw [hb]
        · rw [hb]
          dsimp only
          cases hsick : pyStrToInt
              (if (get_policy (get_policy s "workday_minutes").2 "sick_default_days").1 = ""
                then "10"
                else (get_policy (get_policy s "workday_minutes").2 "sick_default_days").1) with
          | none => rfl
          | some g =>
              dsimp only
              cases hacc : accumUsed (get_policy (get_policy s "workday_minutes").2
                  "sick_default_days").2
                  (approvedInYear (get_policy (get_policy s "workday_minutes").2
                    "sick_default_days").2 e y) (fun _ => 0) with
              | none => rfl
              | some u =>
                  dsimp only
                  rw [if_pos rfl]
  · rintro emp n hemp hn hn0 hcodes ⟨g, hg⟩
    unfold api_my_summary
    rw [hemp]
    dsimp only
    rw [hn]
    dsimp only
    rw [hg]
    dsimp only
    have hreq : (get_policy (get_policy s "workday_minutes").2 "sick_default_days").2.requests
        = s.requests := by
      rw [get_policy_requests, get_policy_requests]
    have hlt : (get_policy (get_policy s "workday_minutes").2 "sick_default_days").2.leave_types
        = s.leave_types := by
      rw [get_policy_leave_types, get_policy_leave_types]
    obtain ⟨u, hu⟩ := accumUsed_some
        (get_policy (get_policy s "workday_minutes").2 "sick_default_days").2
        (approvedInYear (get_policy (get_policy s "workday_minutes").2
          "sick_default_days").2 e y)
        (by
          intro r hr
          have hrs : r ∈ s.requests := by
            have := List.mem_filter.mp hr
            rw [← hreq]
            exact this.1
          rw [leaveTypeCode_congr hlt r]
          exact hcodes r hrs)
        (fun _ => 0)
    rw [hu]
    dsimp only
    rw [if_neg hn0]
    rfl

/-- C10 witness: with `workday_minutes` stored as `'0'` the summary
crashes (ZeroDivisionError); on the fully seeded `exState` it completes. -/
theorem claim_C10_amended_witness :
    ((get_policy exZeroWorkday "workday_minutes").1 ≠ "" ∧
      pyStrToInt (get_policy exZeroWorkday "workday_minutes").1 = some 0) ∧
    api_my_summary exZeroWorkday 1 2025 = none ∧
    (api_my_summary exState 1 2025).isSome = true :=
  ⟨⟨by decide, by decide⟩,
    (claim_C10_amended exZeroWorkday 1 2025).1 ⟨by decide, Or.inr (by decide)⟩,
    (claim_C10_amended exState 1 2025).2 exEmployee 480 (by decide) (by decide)
      (by decide) (by decide) ⟨10, by decide⟩⟩

/-- C3: for every employee and year, the summary sums `requested_minutes`
of the employee's APPROVED requests whose `start_dt` falls in the calendar
year, per leave-type code; each of the four `used_days` values equals
those minutes divided by the parsed `workday_minutes` policy value,
rounded to two decimals (round-half-to-even over exact rationals); and
`remaining_days` for ANNUAL and SICK equals granted minus used exactly —
no flooring at zero, so it is negative whenever used exceeds granted. -/
theorem claim_C3_summary (s : State) (e : Nat) (y : Int) (out : SummaryOut)
    (s' : State) (hrun : api_my_summary s e y = some (out, s'))
    (hvalid : ∀ r ∈ s.requests, r.start_dt.Valid)
    (hw : 0 < out.workday_minutes) :
    pyStrToInt (if (get_policy s "workday_minutes").1 = "" then "480"
      else (get_policy s "workday_minutes").1) = some out.workday_minutes ∧
    ((out.annual_used_centi : ℚ) / 100 =
      pyRound2 ((specUsedMinutes s e y "ANNUAL" : ℚ) / (out.workday_minutes : ℚ))) ∧
    ((out.sick_used_centi : ℚ) / 100 =
      pyRound2 ((specUsedMinutes s e y "SICK" : ℚ) / (out.workday_minutes : ℚ))) ∧
    ((out.event_used_centi : ℚ) / 100 =
      pyRound2 ((specUsedMinutes s e y "EVENT" : ℚ) / (out.workday_minutes : ℚ))) ∧
    ((out.public_used_centi : ℚ) / 100 =
      pyRound2 ((specUsedMinutes s e y "PUBLIC" : ℚ) / (out.workday_minutes : ℚ))) ∧
    ((out.annual_remaining_centi : ℚ) / 100 =
      (out.annual_granted_days : ℚ) - (out.annual_used_centi : ℚ) / 100) ∧
    ((out.sick_remaining_centi : ℚ) / 100 =
      (out.sick_granted_days : ℚ) - (out.sick_used_centi : ℚ) / 100) := by
  unfold api_my_summary at hrun
  cases hemp : findEmployee s e with
  | none => rw [hemp] at hrun; cases hrun
  | some emp =>
  rw [hemp] at hrun
  dsimp only at hrun
  cases hwp : pyStrToInt (if (get_policy s "workday_minutes").1 = "" then "480"
      else (get_policy s "workday_minutes").1) with
  | none => rw [hwp] at hrun; cases hrun
  | some w =>
  rw [hwp] at hrun
  dsimp only at hrun
  cases hsp : pyStrToInt
      (if (get_policy (get_policy s "workday_minutes").2 "sick_default_days").1 = ""
        then "10"
        else (get_policy (get_policy s "workday_minutes").2 "sick_default_days").1) with
  | none => rw [hsp] at hrun; cases hrun
  | some g =>
  rw [hsp] at hrun
  dsimp only at hrun
  cases hacc : accumUsed (get_policy (get_policy s "workday_minutes").2
      "sick_default_days").2
      (approvedInYear (get_policy (get_policy s "workday_minutes").2
        "sick_default_days").2 e y) (fun _ => 0) with
  | none => rw [hacc] at hrun; cases hrun
  | some u =>
  rw [hacc] at hrun
  dsimp only at hrun
  by_cases hw0 : w = 0
  · rw [if_pos hw0] at hrun; cases hrun
  · rw [if_neg hw0] at hrun
    have hps := Option.some.inj hrun
    rw [Prod.ext_iff] at hps
    obtain ⟨hout, hs'⟩ := hps
    subst hout
    dsimp only at hw ⊢
    have hreq2 : (get_policy (get_policy s "workday_minutes").2
        "sick_default_days").2.requests = s.requests := by
      rw [get_policy_requests, get_policy_requests]
    have hlt2 : (get_policy (get_policy s "workday_minutes").2
        "sick_default_days").2.leave_types = s.leave_types := by
      rw [get_policy_leave_types, get_policy_leave_types]
    have houter : approvedInYear (get_policy (get_policy s "workday_minutes").2
        "sick_default_days").2 e y =
        s.requests.filter (fun r => r.employee_id == e &&
          r.status == Status.APPROVED && r.start_dt.year == y) := by
      unfold approvedInYear
      rw [hreq2]
      apply List.filter_congr
      intro r hr
      rw [yearWindowFilter_eq_year y r.start_dt (hvalid r hr)]
    have hused : ∀ c : String, u c = specUsedMinutes s e y c := by
      intro c
      have hchar := accumUsed_eq (get_policy (get_policy s "workday_minutes").2
          "sick_default_days").2
          (approvedInYear (get_policy (get_policy s "workday_minutes").2
            "sick_default_days").2 e y) (fun _ => 0) u hacc c
      rw [hchar]
      unfold specUsedMinutes
      have hfil : (approvedInYear (get_policy (get_policy s "workday_minutes").2
            "sick_default_days").2 e y).filter
            (fun r => leaveTypeCode (get_policy (get_policy s "workday_minutes").2
              "sick_default_days").2 r == some c) =
          (s.requests.filter (fun r => r.employee_id == e &&
            r.status == Status.APPROVED && r.start_dt.year == y)).filter
            (fun r => leaveTypeCode s r == some c) := by
        rw [houter]
        apply List.filter_congr
        intro r hr
        rw [leaveTypeCode_congr hlt2 r]
      rw [hfil]
      simp
    refine ⟨rfl, ?_, ?_, ?_, ?_, ?_, ?_⟩
    · rw [← hused "ANNUAL"]
      exact round2CentiDiv_eq (u "ANNUAL") w hw
    · rw [← hused "SICK"]
      exact round2CentiDiv_eq (u "SICK") w hw
    · rw [← hused "EVENT"]
      exact round2CentiDiv_eq (u "EVENT") w hw
    · rw [← hused "PUBLIC"]
      exact round2CentiDiv_eq (u "PUBLIC") w hw
    · rw [round2CentiDiv_hundred]
      push_cast
      ring
    · rw [round2CentiDiv_hundred]
      push_cast
      ring

/-- C3 witness: on `exState`, employee 1's 2025 summary — one approved
960-minute ANNUAL request against a 480-minute workday gives used 2.00,
granted 17, remaining 15.00. -/
theorem claim_C3_summary_witness :
    api_my_summary exState 1 2025 = some (exSummaryOut, exState) ∧
    (0 : Int) < exSummaryOut.workday_minutes ∧
    (pyStrToInt (if (get_policy exState "workday_minutes").1 = "" then "480"
        else (get_policy exState "workday_minutes").1) =
          some exSummaryOut.workday_minutes ∧
      ((exSummaryOut.annual_used_centi : ℚ) / 100 =
        pyRound2 ((specUsedMinutes exState 1 2025 "ANNUAL" : ℚ) /
          (exSummaryOut.workday_minutes : ℚ))) ∧
      ((exSummaryOut.sick_used_centi : ℚ) / 100 =
        pyRound2 ((specUsedMinutes exState 1 2025 "SICK" : ℚ) /
          (exSummaryOut.workday_minutes : ℚ))) ∧
      ((exSummaryOut.event_used_centi : ℚ) / 100 =
        pyRound2 ((specUsedMinutes exState 1 2025 "EVENT" : ℚ) /
          (exSummaryOut.workday_minutes : ℚ))) ∧
      ((exSummaryOut.public_used_centi : ℚ) / 100 =
        pyRound2 ((specUsedMinutes exState 1 2025 "PUBLIC" : ℚ) /
          (exSummaryOut.workday_minutes : ℚ))) ∧
      ((exSummaryOut.annual_remaining_centi : ℚ) / 100 =
        (exSummaryOut.annual_granted_days : ℚ) -
          (exSummaryOut.annual_used_centi : ℚ) / 100) ∧
      ((exSummaryOut.sick_remaining_centi : ℚ) / 100 =
        (exSummaryOut.sick_granted_days : ℚ) -
          (exSummaryOut.sick_used_centi : ℚ) / 100)) :=
  ⟨by decide, by decide,
    claim_C3_summary exState 1 2025 exSummaryOut exState (by decide) (by decide)
      (by decide)⟩
